import Mathlib

/-!
Shallow embedding of the `travel-chatbot` repository, agents package:
`backend/agents/travel_group_chat.py`, `backend/agents/travel_flight.py`
and `backend/agents/travel_hotel.py`.

Each Python handler becomes a pure Lean function from its inputs (message,
message context, current mutable state of the agent object) to its outputs:
the new state, the directed `send_message` calls it makes, and the
`publish_message` calls it makes.  External collaborators (the OpenAI
extraction call, the tool-agent caller loop, `random.choice` /
`random.randint`) are modelled as explicit parameters.  A Python runtime
error that escapes a handler is modelled with `Except.error`.
-/

/-! ## Message / topic data model

Modelled from the spec: the `backend/data_types.py` module is not part of
the provided sources; the envelope record shapes below follow section 3 of
the specification (`TopicId{type, source}`, `AgentId{type, key}`,
`EndUserMessage{content}`,
`TravelRequest{source, content, requirements?, original_task?, complete?}`,
`TravelPlan{main_task, subtasks:[{assigned_agent, task_details}]}`,
`GroupChatMessage{source, content}`, `HandoffMessage{content, source}`,
`AgentResponse{source, content}`,
`AgentStructuredResponse{agent_type, data, message}`, `FlightBooking`). -/

structure TopicId where
  type : String
  source : String
deriving DecidableEq

structure AgentId where
  type : String
  key : String
deriving DecidableEq

structure EndUserMessage where
  content : String
deriving DecidableEq

structure TravelRequest where
  source : String
  content : String
  requirements : Option (List (String × String))
  original_task : Option String
  complete : Bool
deriving DecidableEq

structure TravelSubTask where
  assigned_agent : String
  task_details : String
deriving DecidableEq

structure TravelPlan where
  main_task : String
  subtasks : List TravelSubTask
deriving DecidableEq

structure GroupChatMessage where
  source : String
  content : String
deriving DecidableEq

structure HandoffMessage where
  content : String
  source : String
deriving DecidableEq

structure AgentResponse where
  source : String
  content : String
deriving DecidableEq

/-- Python values stored in the parameter dict that the flight extraction
collaborator produces (`json.loads` of the model reply): strings and ints. -/
inductive PyVal where
  | str (s : String)
  | int (n : Int)
deriving DecidableEq

/-- A Python dict with string keys, as an association list. -/
abbrev PyDict := List (String × PyVal)

/-- Result record of `simulate_flight_booking` (`travel_flight.py`, lines
57-67).  The five fields copied from the input dict keep whatever Python
value the dict held; the remaining fields are computed by the function. -/
structure FlightBooking where
  departure_city : PyVal
  destination_city : PyVal
  departure_date : PyVal
  return_date : PyVal
  airline : String
  flight_number : String
  total_price : Int
  booking_reference : String
  number_of_passengers : PyVal
deriving DecidableEq

/-- One published envelope: the payload kinds that the three agent files
publish with `publish_message`. -/
inductive Envelope where
  | travelRequest (r : TravelRequest)
  | agentResponse (r : AgentResponse)
  | handoffMessage (h : HandoffMessage)
  | structuredResponse (agent_type : String) (data : FlightBooking) (message : String)
deriving DecidableEq

/-- A `publish_message(payload, DefaultTopicId(type, source))` call. -/
abbrev Published := Envelope × TopicId

/-! ## Python string helpers

The handlers test `"travel plan" in message.content.lower()`.  These helpers
model Python `str.lower`, the substring operator `in`, iteration over a
`str` (which yields its characters as one-character strings), and the slice
`s[:3].upper()`, on the ASCII texts the agents exchange. -/

def isPrefixChars : List Char → List Char → Bool
  | [], _ => true
  | _ :: _, [] => false
  | a :: as, b :: bs => a == b && isPrefixChars as bs

def containsChars (needle : List Char) : List Char → Bool
  | [] => needle.isEmpty
  | b :: bs => isPrefixChars needle (b :: bs) || containsChars needle bs

/-- Python `needle in hay` on strings. -/
def pyIn (needle hay : String) : Bool :=
  containsChars needle.toList hay.toList

/-- Python `s.lower()` (ASCII). -/
def pyLower (s : String) : String :=
  String.mk (s.toList.map Char.toLower)

/-- Python `s[:3].upper()` (ASCII). -/
def pySliceUpper3 (s : String) : String :=
  String.mk ((s.toList.take 3).map Char.toUpper)

/-- Python iteration over a `str`: its characters, as 1-character strings. -/
def pyStrChars (s : String) : List String :=
  s.toList.map (fun c => String.mk [c])

/-! ## GroupChatManager (`travel_group_chat.py`) -/

/-- Mutable fields of a `GroupChatManager` instance (`__init__`, lines
26-31).  `_chat_history` and `_responses` are initialised and never touched
again by any handler in the file. -/
structure GroupChatManagerState where
  chat_history : List GroupChatMessage
  conversation_complete : Bool
  session_id : Option String
  responses : List (String × List String)
deriving DecidableEq

def initialGCMState : GroupChatManagerState :=
  { chat_history := [], conversation_complete := false
    session_id := none, responses := [] }

/-- Method `request_relevant_agents` (lines 85-103): one
`publish_message(TravelRequest(...), DefaultTopicId(agent_type, self._session_id))`
per element of `relevant_agents`.  The session id parameter is the value of
`self._session_id` at call time (always assigned by the caller just before,
line 45). -/
def request_relevant_agents (session_id : String) (relevant_agents : List String) :
    List Published :=
  relevant_agents.map (fun agent_type =>
    (Envelope.travelRequest
      { source := "GroupChatManager"
        content := "Provide details for the travel plan"
        requirements := some [("destination_city", "Paris")]
        original_task := none
        complete := false },
     { type := agent_type, source := session_id }))

/-- Handler `handle_travel_request` (lines 33-46): stores
`ctx.topic_id.source` into `self._session_id`, then calls
`request_relevant_agents(ctx.topic_id.type)`.  The argument is the topic
type *string*, passed where `List[str]` is expected, so the `for` loop in
`request_relevant_agents` iterates over its characters (`pyStrChars`).
Note the handler never consults `self._conversation_complete`. -/
def handle_travel_request (st : GroupChatManagerState) (message : EndUserMessage)
    (ctx : TopicId) : GroupChatManagerState × List Published :=
  let st1 := { st with session_id := some ctx.source }
  (st1, request_relevant_agents ctx.source (pyStrChars ctx.type))

/-- The directed `TravelRequest`s built in `handle_complex_travel_request`
(lines 61-71): one `send_message(TravelRequest(source="GroupChatManager",
content=task.task_details, original_task=message.main_task),
AgentId(task.assigned_agent, self._session_id))` per subtask, in subtask
order. -/
def sent_requests (plan : TravelPlan) (session_id : String) :
    List (TravelRequest × AgentId) :=
  plan.subtasks.map (fun task =>
    ({ source := "GroupChatManager"
       content := task.task_details
       requirements := none
       original_task := some plan.main_task
       complete := false },
     { type := task.assigned_agent, key := session_id }))

/-- Default used only to read an `Option` that is proved `some` wherever the
gather result is consumed. -/
def emptyGCM : GroupChatMessage := { source := "", content := "" }

/-- Model of `await asyncio.gather(*tasks)` (line 72).  The environment
delivers the specialists' replies as `arrivals`, a list of
(task index, reply) pairs **in completion order**; `gather` places each
reply at its task's position, so its result is in task order. -/
def gatherResults (n : Nat) (arrivals : List (Nat × GroupChatMessage)) :
    List GroupChatMessage :=
  (List.range n).map (fun i => (arrivals.lookup i).getD emptyGCM)

/-- `asyncio.gather` resolves only when every awaited task has resolved. -/
def allArrived (n : Nat) (arrivals : List (Nat × GroupChatMessage)) : Bool :=
  (List.range n).all (fun i => (arrivals.lookup i).isSome)

/-- Handler `handle_complex_travel_request` (lines 48-83): stores the session
id, sends one directed `TravelRequest` per subtask, awaits **all** replies
(`asyncio.gather`, with no timeout), joins the reply contents with
`"\n".join`, and publishes one `AgentResponse` to
`DefaultTopicId("user_proxy", ctx.topic_id.source)`.  While any reply is
missing the gather has not resolved, so nothing is published. -/
def handle_complex_travel_request (st : GroupChatManagerState)
    (message : TravelPlan) (ctx : TopicId)
    (arrivals : List (Nat × GroupChatMessage)) :
    GroupChatManagerState × List (TravelRequest × AgentId) × List Published :=
  let st1 := { st with session_id := some ctx.source }
  let sent := sent_requests message ctx.source
  if allArrived sent.length arrivals then
    let group_results := gatherResults sent.length arrivals
    let final_plan := String.intercalate "\n" (group_results.map GroupChatMessage.content)
    (st1, sent,
      [(Envelope.agentResponse
          { source := "GroupChatManager"
            content := "Here is your comprehensive travel plan:\n" ++ final_plan },
        { type := "user_proxy", source := ctx.source })])
  else
    (st1, sent, [])

/-- Handler `handle_handoff` (lines 105-122).  If `message.complete` it sets
`self._conversation_complete = True` and publishes nothing.  Otherwise it
executes `await self.compile_final_plan()` — but no method named
`compile_final_plan` is defined on `GroupChatManager` (or anywhere in the
file), so the Python attribute access raises `AttributeError`, modelled as
`Except.error`. -/
def handle_handoff (st : GroupChatManagerState) (message : TravelRequest)
    (ctx : TopicId) :
    Except String (GroupChatManagerState × List Published) :=
  if message.complete then
    Except.ok ({ st with conversation_complete := true }, [])
  else
    Except.error "AttributeError: GroupChatManager object has no attribute compile_final_plan"

/-! ## FlightAgent (`travel_flight.py`) -/

structure FlightOption where
  airline : String
  flight_number : String
  price_per_ticket : Int
deriving DecidableEq

/-- The `flight_options` table (`travel_flight.py`, lines 39-49). -/
def flight_options : List FlightOption :=
  [ { airline := "Air France", flight_number := "AF123", price_per_ticket := 200 }
  , { airline := "Delta", flight_number := "DL456", price_per_ticket := 250 }
  , { airline := "British Airways", flight_number := "BA789", price_per_ticket := 300 }
  , { airline := "Lufthansa", flight_number := "LH101", price_per_ticket := 220 }
  , { airline := "Emirates", flight_number := "EK202", price_per_ticket := 400 } ]

/-- The option `random.choice(flight_options)` picks, given the random draw
`c` (line 51). -/
def selected_flight (c : Fin 5) : FlightOption :=
  flight_options.get ⟨c.val, c.isLt⟩

/-- Python `d[k]`: the value, or a `KeyError` when the key is absent. -/
def pySubscript (d : PyDict) (k : String) : Except String PyVal :=
  match d.lookup k with
  | some v => Except.ok v
  | none => Except.error ("KeyError: " ++ k)

/-- Python `v[:3].upper()` on a dict value: slicing an int raises. -/
def pyValSliceUpper3 : PyVal → Except String String
  | PyVal.str s => Except.ok (pySliceUpper3 s)
  | PyVal.int _ => Except.error "TypeError: int object is not subscriptable"

/-- `simulate_flight_booking` (`travel_flight.py`, lines 29-67).  The two
`random` draws are the parameters `c` (`random.choice`, line 51) and `r`
(`random.randint(1000, 9999)`, line 53).  The five subscripts of
`flight_params` happen first, in source order; `total_price` is
`2 * selected_flight["price_per_ticket"]` (line 52); `booking_reference` is
`f"FL-{r}-{destination_city[:3].upper()}"` (lines 53-55). -/
def simulate_flight_booking (flight_params : PyDict) (c : Fin 5) (r : Nat) :
    Except String FlightBooking := do
  let departure_city ← pySubscript flight_params "departure_city"
  let destination_city ← pySubscript flight_params "destination_city"
  let departure_date ← pySubscript flight_params "departure_date"
  let return_date ← pySubscript flight_params "return_date"
  let number_of_passengers ← pySubscript flight_params "number_of_passengers"
  let selected := selected_flight c
  let total_price := 2 * selected.price_per_ticket
  let destSlice ← pyValSliceUpper3 destination_city
  let booking_reference := "FL-" ++ toString r ++ "-" ++ destSlice
  pure
    { departure_city := departure_city
      destination_city := destination_city
      departure_date := departure_date
      return_date := return_date
      airline := selected.airline
      flight_number := selected.flight_number
      total_price := total_price
      booking_reference := booking_reference
      number_of_passengers := number_of_passengers }

/-- Result of `FlightAgent._get_flight_details` (lines 111-133): on any
failure of the OpenAI call or of `json.loads` the `except` branch only logs,
so the method falls through and returns Python `None`; on success it returns
the parsed dict.  The collaborator outcome is the `extraction` parameter. -/
abbrev FlightExtraction := Option PyDict

/-- Handler `FlightAgent.handle_message` (lines 136-160).  Output on success:
the list of `publish_message` calls, paired with how many times
`simulate_flight_booking` ran to completion.  If the text contains
`"travel plan"` (lowercased) the agent publishes exactly one
`HandoffMessage(content=message.content, source=self.id.type)` to
`DefaultTopicId("router", ctx.topic_id.source)` and returns.  Otherwise
`flight_params = self._get_flight_details(...)` may be `None`, and
`simulate_flight_booking(None)` then raises `TypeError` when it subscripts
`None` — nothing catches it, so the handler fails (`Except.error`). -/
def flight_handle_message (agent_type : String) (extraction : FlightExtraction)
    (c : Fin 5) (r : Nat) (message : EndUserMessage) (ctx : TopicId) :
    Except String (List Published × Nat) :=
  if pyIn "travel plan" (pyLower message.content) then
    Except.ok
      ([(Envelope.handoffMessage { content := message.content, source := agent_type },
         { type := "router", source := ctx.source })], 0)
  else
    match extraction with
    | none => Except.error "TypeError: NoneType object is not subscriptable"
    | some flight_params =>
      match simulate_flight_booking flight_params c r with
      | Except.error e => Except.error e
      | Except.ok response =>
        Except.ok
          ([(Envelope.structuredResponse agent_type response
              ("Simulated response: Flight booking processed successfully for query - "
                ++ message.content),
             { type := "user_proxy", source := ctx.source })], 1)

/-- Handler `FlightAgent.handle_travel_request` (lines 162-172).  The body
executes `response = await simulate_flight_booking()` — with **no**
argument, while `simulate_flight_booking` requires `flight_params` — so the
call raises `TypeError` before its body runs and the handler never reaches
its `return GroupChatMessage(...)` line. -/
def flight_handle_travel_request (agent_type : String) (message : TravelRequest)
    (ctx : TopicId) : Except String (GroupChatMessage × List Published) :=
  Except.error "TypeError: simulate_flight_booking missing 1 required positional argument: flight_params"

/-! ## HotelAgent (`travel_hotel.py`) -/

/-- Outcome of the excluded `tool_agent_caller_loop` collaborator
(`travel_hotel.py`, lines 113-120): either the final message content (a
string, per the `assert` on line 126) or a raised exception. -/
inductive ToolLoopOutcome where
  | success (finalContent : String)
  | failure (err : String)
deriving DecidableEq

/-- `HotelAgent._process_request` (lines 106-127): a failing caller loop is
caught and turned into the fixed error text; otherwise the last message
content is returned. -/
def hotel_process_request : ToolLoopOutcome → String
  | ToolLoopOutcome.failure _ => "Failed to book hotel. Please try again."
  | ToolLoopOutcome.success content => content

/-- Handler `HotelAgent.handle_message` (lines 129-151), with the same
handoff trigger as the flight agent; otherwise it publishes one
`AgentResponse(source=self.id.type, content=f"Hotel booked: {...}")` to
`DefaultTopicId("user_proxy", ctx.topic_id.source)`.  The `Nat` counts
completed `_process_request` calls. -/
def hotel_handle_message (agent_type : String) (outcome : ToolLoopOutcome)
    (message : EndUserMessage) (ctx : TopicId) : List Published × Nat :=
  if pyIn "travel plan" (pyLower message.content) then
    ([(Envelope.handoffMessage { content := message.content, source := agent_type },
       { type := "router", source := ctx.source })], 0)
  else
    ([(Envelope.agentResponse
        { source := agent_type
          content := "Hotel booked: " ++ hotel_process_request outcome },
       { type := "user_proxy", source := ctx.source })], 1)

/-- Handler `HotelAgent.handle_travel_request` (lines 153-168): it is
annotated `-> None` and returns nothing (`none`); it **publishes** an
`AgentResponse` to `DefaultTopicId("user_proxy", ctx.topic_id.source)`
instead of returning a `GroupChatMessage` to the caller. -/
def hotel_handle_travel_request (agent_type : String) (outcome : ToolLoopOutcome)
    (message : TravelRequest) (ctx : TopicId) :
    Option GroupChatMessage × List Published :=
  (none,
   [(Envelope.agentResponse
      { source := agent_type
        content := "Hotel booked: " ++ hotel_process_request outcome },
     { type := "user_proxy", source := ctx.source })])

/-! ## Example inputs used by witnesses and concrete evaluations -/

def planEx : TravelPlan :=
  { main_task := "Plan a trip to Paris"
    subtasks :=
      [ { assigned_agent := "flight_booking", task_details := "Book flights to Paris" }
      , { assigned_agent := "hotel_booking", task_details := "Book a hotel in Paris" } ] }

def repliesEx : List GroupChatMessage :=
  [ { source := "flight_booking", content := "Flight booking processed" }
  , { source := "hotel_booking", content := "Hotel booked" } ]

/-- The two replies in **reversed** completion order: the second subtask
resolves before the first. -/
def arrivalsEx : List (Nat × GroupChatMessage) :=
  [ (1, { source := "hotel_booking", content := "Hotel booked" })
  , (0, { source := "flight_booking", content := "Flight booking processed" }) ]

/-- Only subtask 0 ever replies; the hotel specialist never does. -/
def partialArrivalsEx : List (Nat × GroupChatMessage) :=
  [ (0, { source := "flight_booking", content := "Flight booking processed" }) ]

def ctxEx : TopicId := { type := "group_chat_manager", source := "session-1" }

def endUserEx : EndUserMessage := { content := "book a trip" }

def handoffCompleteEx : TravelRequest :=
  { source := "router", content := "done", requirements := none
    original_task := none, complete := true }

def handoffIncompleteEx : TravelRequest :=
  { source := "router", content := "continue", requirements := none
    original_task := none, complete := false }

def completedState : GroupChatManagerState :=
  { initialGCMState with conversation_complete := true }

def travelReqEx : TravelRequest :=
  { source := "GroupChatManager", content := "Book a hotel in Paris"
    requirements := none, original_task := some "Plan a trip to Paris"
    complete := false }

def ctxFlightEx : TopicId := { type := "flight_booking", source := "session-1" }

def ctxHotelEx : TopicId := { type := "hotel_booking", source := "session-1" }

def dictEx : PyDict :=
  [ ("departure_city", PyVal.str "New York")
  , ("destination_city", PyVal.str "Paris")
  , ("departure_date", PyVal.str "2023-12-20")
  , ("return_date", PyVal.str "2023-12-30")
  , ("number_of_passengers", PyVal.int 2)
  , ("extra_key", PyVal.str "ignored") ]

/-! ## Helper lemmas: association-list lookup under a permutation of `enum`

These justify the `asyncio.gather` model: whatever the completion order of
the awaited tasks (any permutation of the indexed replies), looking a task's
index up in the arrivals gives that task's own reply. -/

theorem lookup_of_mem_of_nodup_keys {β : Type} {l : List (Nat × β)} {k : Nat} {v : β}
    (hnd : (l.map Prod.fst).Nodup) (hm : (k, v) ∈ l) : l.lookup k = some v := by
  induction l with
  | nil => cases hm
  | cons a l ih =>
    obtain ⟨a1, a2⟩ := a
    rw [List.map_cons, List.nodup_cons] at hnd
    rcases List.mem_cons.1 hm with h | h
    · rw [Prod.mk.injEq] at h
      obtain ⟨rfl, rfl⟩ := h
      exact List.lookup_cons_self
    · have hk : k ∈ List.map Prod.fst l := List.mem_map.2 ⟨(k, v), h, rfl⟩
      have hne : k ≠ a1 := by
        rintro rfl
        exact hnd.1 hk
      have hb : (k == a1) = false := by
        simp [hne]
      rw [List.lookup_cons, hb]
      exact ih hnd.2 h

theorem mem_of_lookup_eq_some {β : Type} {l : List (Nat × β)} {k : Nat} {v : β}
    (h : l.lookup k = some v) : (k, v) ∈ l := by
  rcases List.lookup_eq_some_iff.1 h with ⟨l₁, l₂, rfl, -⟩
  exact List.mem_append.2 (Or.inr (List.mem_cons_self _ _))

theorem lookup_arrivals_eq {β : Type} {replies : List β} {arrivals : List (Nat × β)}
    (hp : arrivals.Perm replies.enum) (i : Nat) :
    arrivals.lookup i = replies[i]? := by
  have hnd : (arrivals.map Prod.fst).Nodup :=
    ((hp.map Prod.fst).nodup_iff).2 (List.nodup_enum_map_fst replies)
  cases hq : replies[i]? with
  | some v =>
    have hmem : (i, v) ∈ replies.enum := List.mk_mem_enum_iff_getElem?.2 hq
    exact lookup_of_mem_of_nodup_keys hnd (hp.mem_iff.2 hmem)
  | none =>
    cases hl : arrivals.lookup i with
    | none => rfl
    | some w =>
      have hmem : (i, w) ∈ replies.enum := hp.mem_iff.1 (mem_of_lookup_eq_some hl)
      rw [List.mk_mem_enum_iff_getElem?, hq] at hmem
      cases hmem

theorem gatherResults_eq_of_perm {replies : List GroupChatMessage}
    {arrivals : List (Nat × GroupChatMessage)} (hp : arrivals.Perm replies.enum) :
    gatherResults replies.length arrivals = replies := by
  unfold gatherResults
  apply List.ext_getElem
  · simp
  · intro i h1 h2
    simp only [List.getElem_map, List.getElem_range]
    rw [lookup_arrivals_eq hp, List.getElem?_eq_getElem h2]
    rfl

theorem allArrived_of_perm {replies : List GroupChatMessage}
    {arrivals : List (Nat × GroupChatMessage)} (hp : arrivals.Perm replies.enum) :
    allArrived replies.length arrivals = true := by
  unfold allArrived
  rw [List.all_eq_true]
  intro i hi
  rw [List.mem_range] at hi
  rw [lookup_arrivals_eq hp, List.getElem?_eq_getElem hi]
  rfl

/-! ## Claim theorems -/

/-- C1: for a `TravelPlan` with N subtasks handled by the coordinator, the
single published `AgentResponse` joins the N `GroupChatMessage` reply
contents in original subtask order — `replies` lists each subtask's own
reply at that subtask's index, while the arrivals may be **any** permutation
(any completion order) of those indexed replies. -/
theorem C1_compiled_reply_in_subtask_order (st : GroupChatManagerState)
    (plan : TravelPlan) (ctx : TopicId) (replies : List GroupChatMessage)
    (arrivals : List (Nat × GroupChatMessage))
    (hlen : replies.length = plan.subtasks.length)
    (hp : arrivals.Perm replies.enum) :
    (handle_complex_travel_request st plan ctx arrivals).2.2 =
      [(Envelope.agentResponse
          { source := "GroupChatManager"
            content := "Here is your comprehensive travel plan:\n" ++
              String.intercalate "\n" (replies.map GroupChatMessage.content) },
        { type := "user_proxy", source := ctx.source })] := by
  have hsl : (sent_requests plan ctx.source).length = replies.length := by
    simp [sent_requests, hlen]
  simp only [handle_complex_travel_request, hsl, allArrived_of_perm hp,
    gatherResults_eq_of_perm hp, if_true]

/-- C1 witness: a concrete two-subtask plan whose replies complete in
reversed order still yields the compiled plan in subtask order. -/
theorem C1_witness :
    repliesEx.length = planEx.subtasks.length ∧ arrivalsEx.Perm repliesEx.enum ∧
    (handle_complex_travel_request initialGCMState planEx ctxEx arrivalsEx).2.2 =
      [(Envelope.agentResponse
          { source := "GroupChatManager"
            content := "Here is your comprehensive travel plan:\n" ++
              String.intercalate "\n" (repliesEx.map GroupChatMessage.content) },
        { type := "user_proxy", source := ctxEx.source })] :=
  ⟨by decide, by decide,
    C1_compiled_reply_in_subtask_order initialGCMState planEx ctxEx repliesEx
      arrivalsEx (by decide) (by decide)⟩

/-- C2: the coordinator sends exactly one directed `TravelRequest` per
subtask, addressed to `AgentId(subtask.assigned_agent, session key)` with
`original_task = plan.main_task`, and — once every reply has arrived —
publishes exactly one `AgentResponse`, on the `user_proxy` topic of the
session. -/
theorem C2_one_request_per_subtask_one_response (st : GroupChatManagerState)
    (plan : TravelPlan) (ctx : TopicId) (replies : List GroupChatMessage)
    (arrivals : List (Nat × GroupChatMessage))
    (hlen : replies.length = plan.subtasks.length)
    (hp : arrivals.Perm replies.enum) :
    (handle_complex_travel_request st plan ctx arrivals).2.1 =
      plan.subtasks.map (fun task =>
        ({ source := "GroupChatManager"
           content := task.task_details
           requirements := none
           original_task := some plan.main_task
           complete := false },
         { type := task.assigned_agent, key := ctx.source })) ∧
    (handle_complex_travel_request st plan ctx arrivals).2.1.length =
      plan.subtasks.length ∧
    (handle_complex_travel_request st plan ctx arrivals).2.2.length = 1 ∧
    (handle_complex_travel_request st plan ctx arrivals).2.2.map Prod.snd =
      [{ type := "user_proxy", source := ctx.source }] := by
  have hsl : (sent_requests plan ctx.source).length = replies.length := by
    simp [sent_requests, hlen]
  simp only [handle_complex_travel_request, hsl, allArrived_of_perm hp,
    gatherResults_eq_of_perm hp, if_true]
  refine ⟨rfl, ?_, rfl, rfl⟩
  simp [sent_requests, hlen]

/-- C2 witness: the concrete two-subtask plan issues exactly two directed
requests and one `user_proxy` publication. -/
theorem C2_witness :
    repliesEx.length = planEx.subtasks.length ∧ arrivalsEx.Perm repliesEx.enum ∧
    ((handle_complex_travel_request initialGCMState planEx ctxEx arrivalsEx).2.1 =
      planEx.subtasks.map (fun task =>
        ({ source := "GroupChatManager"
           content := task.task_details
           requirements := none
           original_task := some planEx.main_task
           complete := false },
         { type := task.assigned_agent, key := ctxEx.source })) ∧
     (handle_complex_travel_request initialGCMState planEx ctxEx arrivalsEx).2.1.length =
       planEx.subtasks.length ∧
     (handle_complex_travel_request initialGCMState planEx ctxEx arrivalsEx).2.2.length = 1 ∧
     (handle_complex_travel_request initialGCMState planEx ctxEx arrivalsEx).2.2.map Prod.snd =
       [{ type := "user_proxy", source := ctxEx.source }]) :=
  ⟨by decide, by decide,
    C2_one_request_per_subtask_one_response initialGCMState planEx ctxEx repliesEx
      arrivalsEx (by decide) (by decide)⟩

/-- C3: the claim fails on the code.  After a completion decision
(`handle_handoff` with `complete = true` sets `_conversation_complete`), a
redelivered `EndUserMessage` for the same session is **not** a no-op:
`handle_travel_request` never consults `_conversation_complete` and
publishes one `TravelRequest` per character of the topic type
(`"group_chat_manager"` has 18 characters). -/
theorem C3_completed_session_still_dispatches :
    handle_handoff initialGCMState handoffCompleteEx ctxEx =
      Except.ok (completedState, []) ∧
    completedState.conversation_complete = true ∧
    (handle_travel_request completedState endUserEx ctxEx).2.length = 18 :=
  ⟨rfl, rfl, rfl⟩

/-- C4: an `EndUserMessage` whose lowercased text contains `"travel plan"`
makes both specialists publish exactly one
`HandoffMessage{content = the text, source = own agent type}` to the
`router` topic of the same session, with zero booking calls. -/
theorem C4_handoff_trigger (agent_ty content : String)
    (extraction : FlightExtraction) (c : Fin 5) (r : Nat)
    (outcome : ToolLoopOutcome) (ctx : TopicId)
    (h : pyIn "travel plan" (pyLower content) = true) :
    flight_handle_message agent_ty extraction c r { content := content } ctx =
      Except.ok
        ([(Envelope.handoffMessage { content := content, source := agent_ty },
           { type := "router", source := ctx.source })], 0) ∧
    hotel_handle_message agent_ty outcome { content := content } ctx =
      ([(Envelope.handoffMessage { content := content, source := agent_ty },
         { type := "router", source := ctx.source })], 0) := by
  constructor <;> simp [flight_handle_message, hotel_handle_message, h]

/-- C4 witness: a concrete mixed-case composite request triggers the handoff
in both agents. -/
theorem C4_witness :
    pyIn "travel plan" (pyLower "Could you make a Travel Plan for Paris") = true ∧
    (flight_handle_message "flight_booking" none 0 1234
        { content := "Could you make a Travel Plan for Paris" } ctxFlightEx =
      Except.ok
        ([(Envelope.handoffMessage
            { content := "Could you make a Travel Plan for Paris"
              source := "flight_booking" },
           { type := "router", source := ctxFlightEx.source })], 0) ∧
     hotel_handle_message "flight_booking" (ToolLoopOutcome.success "ok")
        { content := "Could you make a Travel Plan for Paris" } ctxFlightEx =
      ([(Envelope.handoffMessage
          { content := "Could you make a Travel Plan for Paris"
            source := "flight_booking" },
         { type := "router", source := ctxFlightEx.source })], 0)) :=
  ⟨by decide,
    C4_handoff_trigger "flight_booking" "Could you make a Travel Plan for Paris"
      none 0 1234 (ToolLoopOutcome.success "ok") ctxFlightEx (by decide)⟩

/-- C5: the claim fails on the code.  `HotelAgent.handle_travel_request`
returns `None` and instead publishes an `AgentResponse` to the `user_proxy`
topic; `FlightAgent.handle_travel_request` calls `simulate_flight_booking()`
without its required `flight_params` argument and raises `TypeError`, so it
never returns its `GroupChatMessage`. -/
theorem C5_travel_request_handlers_diverge :
    hotel_handle_travel_request "hotel_booking" (ToolLoopOutcome.success "Hilton, 2 nights")
        travelReqEx ctxHotelEx =
      (none,
       [(Envelope.agentResponse
          { source := "hotel_booking", content := "Hotel booked: Hilton, 2 nights" },
         { type := "user_proxy", source := "session-1" })]) ∧
    flight_handle_travel_request "flight_booking" travelReqEx ctxFlightEx =
      Except.error "TypeError: simulate_flight_booking missing 1 required positional argument: flight_params" :=
  ⟨rfl, rfl⟩

/-- C6: the claim fails on the code for the flight agent.  When the
extraction collaborator fails, `_get_flight_details` silently returns
`None`, `handle_message` feeds that `None` straight into
`simulate_flight_booking`, and the resulting `TypeError` escapes the handler
uncaught.  The hotel agent, by contrast, converts a failing caller loop into
its fixed error text. -/
theorem C6_flight_extraction_failure_uncaught :
    flight_handle_message "flight_booking" none 0 1234
        { content := "book a flight from New York to Paris" } ctxFlightEx =
      Except.error "TypeError: NoneType object is not subscriptable" ∧
    hotel_process_request (ToolLoopOutcome.failure "model unavailable") =
      "Failed to book hotel. Please try again." :=
  ⟨rfl, rfl⟩

/-- C7: the claim fails on the code.  The fan-in barrier is a bare
`asyncio.gather` with no timeout: when the hotel specialist never replies
(arrivals hold only subtask 0), both directed requests were sent but
**nothing** is ever published — there is no partial-plan response. -/
theorem C7_missing_reply_publishes_nothing :
    (handle_complex_travel_request initialGCMState planEx ctxEx partialArrivalsEx).2.1.length = 2 ∧
    (handle_complex_travel_request initialGCMState planEx ctxEx partialArrivalsEx).2.2 = [] := by
  decide

/-- C8: the claim fails on the code.  `handle_handoff` on a `TravelRequest`
with `complete = false` executes `await self.compile_final_plan()`, but no
`compile_final_plan` method exists anywhere in the file, so the handler
raises `AttributeError` instead of compiling a final plan. -/
theorem C8_handoff_incomplete_raises :
    handle_handoff initialGCMState handoffIncompleteEx ctxEx =
      Except.error "AttributeError: GroupChatManager object has no attribute compile_final_plan" :=
  rfl

/-- C9: the claim fails on the code.  `handle_travel_request` does record the
session key, but it passes the topic-type *string* `"group_chat_manager"`
where `request_relevant_agents` expects a list of agent types, so the fan-out
publishes one `TravelRequest` per **character** (18 of them, to the
one-character topic types "g", "r", "o", ...), while the method itself, given
an actual two-element agent list, would publish exactly two. -/
theorem C9_fan_out_per_character :
    (handle_travel_request initialGCMState endUserEx ctxEx).1.session_id =
      some "session-1" ∧
    (handle_travel_request initialGCMState endUserEx ctxEx).2 =
      (pyStrChars "group_chat_manager").map (fun agent_type =>
        (Envelope.travelRequest
          { source := "GroupChatManager"
            content := "Provide details for the travel plan"
            requirements := some [("destination_city", "Paris")]
            original_task := none
            complete := false },
         { type := agent_type, source := "session-1" })) ∧
    (handle_travel_request initialGCMState endUserEx ctxEx).2.length = 18 ∧
    ((handle_travel_request initialGCMState endUserEx ctxEx).2.map
        (fun p => p.2.type)).take 3 = ["g", "r", "o"] ∧
    (request_relevant_agents "session-1" ["flight_booking", "hotel_booking"]).length = 2 := by
  decide

/-- C10: for any parameter dict holding the five required keys (with a
string destination, which the booking-reference slice requires), the
simulated booking copies `departure_city`, `destination_city`,
`departure_date`, `return_date` and `number_of_passengers` through
unchanged, and its `total_price` is exactly `2 *` the selected flight
option's `price_per_ticket` — whatever `number_of_passengers` holds. -/
theorem C10_flight_booking_price_and_passthrough (d : PyDict) (c : Fin 5)
    (r : Nat) (dep dd rd np : PyVal) (s : String)
    (h1 : d.lookup "departure_city" = some dep)
    (h2 : d.lookup "destination_city" = some (PyVal.str s))
    (h3 : d.lookup "departure_date" = some dd)
    (h4 : d.lookup "return_date" = some rd)
    (h5 : d.lookup "number_of_passengers" = some np) :
    simulate_flight_booking d c r =
      Except.ok
        { departure_city := dep
          destination_city := PyVal.str s
          departure_date := dd
          return_date := rd
          airline := (selected_flight c).airline
          flight_number := (selected_flight c).flight_number
          total_price := 2 * (selected_flight c).price_per_ticket
          booking_reference := "FL-" ++ toString r ++ "-" ++ pySliceUpper3 s
          number_of_passengers := np } := by
  simp [simulate_flight_booking, pySubscript, h1, h2, h3, h4, h5,
    pyValSliceUpper3, bind, Except.bind, pure, Except.pure]

/-- C10 witness: a concrete dict (with an extra key) and the third flight
option; the total price is twice that option's 300 regardless of the
2 passengers in the dict. -/
theorem C10_witness :
    dictEx.lookup "destination_city" = some (PyVal.str "Paris") ∧
    dictEx.lookup "number_of_passengers" = some (PyVal.int 2) ∧
    simulate_flight_booking dictEx 2 4242 =
      Except.ok
        { departure_city := PyVal.str "New York"
          destination_city := PyVal.str "Paris"
          departure_date := PyVal.str "2023-12-20"
          return_date := PyVal.str "2023-12-30"
          airline := (selected_flight 2).airline
          flight_number := (selected_flight 2).flight_number
          total_price := 2 * (selected_flight 2).price_per_ticket
          booking_reference := "FL-" ++ toString 4242 ++ "-" ++ pySliceUpper3 "Paris"
          number_of_passengers := PyVal.int 2 } :=
  ⟨by decide, by decide,
    C10_flight_booking_price_and_passthrough dictEx 2 4242
      (PyVal.str "New York") (PyVal.str "2023-12-20") (PyVal.str "2023-12-30")
      (PyVal.int 2) "Paris" (by decide) (by decide) (by decide) (by decide) (by decide)⟩
